import Mathlib

/-!
# Verification of the automatic sprite-detection engine

Shallow embedding of the sprite-detection module of the Sprite Sheet Suite
repository (the module defining `detectSpritesFromImage`): background color
estimation, the background-membership predicate, noise reduction, the
flood-fill connected-component detector, input validation, the algorithm
dispatch table, and the bounded insertion-order detection cache.

Modelling conventions:
* A pixel buffer is a flat row-major RGBA byte list (`PixelData`); reads use
  `List.getD` with default 0, mirroring the `Uint8ClampedArray` accesses of
  the source (all reads performed by the engine are in range).
* JavaScript numbers holding configuration values are modelled as `Int`
  (they are compared against pixel statistics); pixel channels are `Nat`.
* The breadth-first loops of the source terminate because every pixel is
  enqueued at most once; the embedding makes this explicit with a fuel
  argument of `w * h + 1`, which is never exhausted on a real run.
* The embedding models the main-thread execution path of the orchestrator
  (`useWebWorker = false` or Worker unavailable).  The worker-dispatched
  copy of the algorithm, which the source duplicates inside an inline code
  string, is embedded separately (`workerDetectBackgroundColor`,
  `workerProcessImageData`).
* The mutable module-level `Map` cache is modelled by explicit state
  passing: `detectSpritesFromImage` receives the cache and returns the
  updated cache together with the result and a flag recording whether the
  fill algorithm was invoked (the "call counter" observable).
-/

namespace SpriteDetect

/-- An RGBA color, one byte per channel (the source passes colors around as
4-element arrays `[r, g, b, a]`). -/
structure Color where
  r : Nat
  g : Nat
  b : Nat
  a : Nat
deriving DecidableEq, Repr

/-- A flat RGBA pixel buffer, 4 bytes per pixel, row-major. -/
abbrev PixelData := List Nat

/-- Absolute difference of two channel values (`Math.abs(x - y)`). -/
def natDist (x y : Nat) : Nat := max x y - min x y

/-- Embedding of `isBackgroundColor(data, index, bgColor, tolerance)`:
alpha-0 pixels are background; otherwise a translucent reference color
classifies no visible pixel as background; otherwise compare the RGB
Manhattan distance against the tolerance. -/
def isBackgroundColor (data : PixelData) (index : Nat) (bgColor : Color)
    (tolerance : Int) : Bool :=
  let r := data.getD index 0
  let g := data.getD (index + 1) 0
  let b := data.getD (index + 2) 0
  let a := data.getD (index + 3) 0
  if a = 0 then true
  else if bgColor.a < 255 ∧ 0 < a then false
  else decide (((natDist r bgColor.r + natDist g bgColor.g + natDist b bgColor.b : Nat) : Int) ≤ tolerance)

/-- Embedding of `colorsSimilar(color1, color2, tolerance)`: channel-wise
(all four channels) absolute difference bounded by the tolerance. -/
def colorsSimilar (color1 color2 : Color) (tolerance : Nat) : Bool :=
  decide (natDist color1.r color2.r ≤ tolerance) &&
  decide (natDist color1.g color2.g ≤ tolerance) &&
  decide (natDist color1.b color2.b ≤ tolerance) &&
  decide (natDist color1.a color2.a ≤ tolerance)

/-- The color stored at pixel byte offset `index`. -/
def colorAt (data : PixelData) (index : Nat) : Color :=
  ⟨data.getD index 0, data.getD (index + 1) 0, data.getD (index + 2) 0,
   data.getD (index + 3) 0⟩

/-- The values `start, start + stride, start + 2*stride, ... < stop` of a
JavaScript `for (let v = start; v < stop; v += stride)` loop. -/
def strideSeq (start stop stride : Nat) : List Nat :=
  (List.range stop).filter (fun v => start ≤ v && (v - start) % stride == 0)

/-- One step of the bucket-counting loop of `detectBackgroundColor`: find the
first already-counted bucket whose color is similar (tolerance 5 in the
source) and increment it, else append a fresh bucket of count 1.  Buckets
keep object-key insertion order, as the source's string-keyed object does. -/
def bumpColorCount (tolerance : Nat) : List (Color × Nat) → Color → List (Color × Nat)
  | [], c => [(c, 1)]
  | (k, n) :: rest, c =>
    if colorsSimilar c k tolerance then (k, n + 1) :: rest
    else (k, n) :: bumpColorCount tolerance rest c

/-- The `Object.keys(colorCounts).reduce((a, b) => counts[a] > counts[b] ? a : b)`
tie-break of the source: keep the accumulator only when its count is strictly
larger, so the last bucket attaining the maximum wins. -/
def mostCommonColor : List (Color × Nat) → Color
  | [] => ⟨0, 0, 0, 0⟩
  | (c, n) :: rest =>
    (rest.foldl (fun acc kv => if acc.2 > kv.2 then acc else kv) (c, n)).1

/-- Embedding of the main-thread `detectBackgroundColor(data, w, h)`: sample
the top and bottom rows and the left and right columns at a stride of
`max(1, floor(dimension / 50))`, bucket the samples with tolerance-5 color
similarity, return the most frequent bucket. -/
def detectBackgroundColor (data : PixelData) (w h : Nat) : Color :=
  let strideX := max 1 (w / 50)
  let topBottom := (strideSeq 0 w strideX).flatMap (fun x =>
    [colorAt data ((0 * w + x) * 4), colorAt data (((h - 1) * w + x) * 4)])
  let strideY := max 1 (h / 50)
  let leftRight := (strideSeq 1 (h - 1) strideY).flatMap (fun y =>
    [colorAt data ((y * w + 0) * 4), colorAt data ((y * w + (w - 1)) * 4)])
  let borderPixels := topBottom ++ leftRight
  mostCommonColor (borderPixels.foldl (bumpColorCount 5) [])

/-- Exact-match bucket counting used by the worker copy of the estimator
(string-keyed object with `color.join(',')` keys, insertion order). -/
def bumpExactColorCount : List (Color × Nat) → Color → List (Color × Nat)
  | [], c => [(c, 1)]
  | (k, n) :: rest, c =>
    if c = k then (k, n + 1) :: rest
    else (k, n) :: bumpExactColorCount rest c

/-- Embedding of the `detectBackgroundColor(data, w, h)` copy inside the
inline worker code string: it samples only the four corner pixels and
returns the most frequent corner color (exact-match buckets). -/
def workerDetectBackgroundColor (data : PixelData) (w h : Nat) : Color :=
  let corners : List (Nat × Nat) := [(0, 0), (w - 1, 0), (0, h - 1), (w - 1, h - 1)]
  let colors := corners.map (fun p => colorAt data ((p.2 * w + p.1) * 4))
  mostCommonColor (colors.foldl bumpExactColorCount [])

/-- The 4-way neighbor offsets `[[-1,0],[1,0],[0,-1],[0,1]]` used by the
noise-reduction flood fills (always 4-way in the source). -/
def neighbors4 : List (Int × Int) := [(-1, 0), (1, 0), (0, -1), (0, 1)]

/-- The neighbor offsets selected by `config.use8WayConnectivity` in the
detector's flood fill. -/
def neighborList (use8 : Bool) : List (Int × Int) :=
  if use8 then [(-1, -1), (-1, 0), (-1, 1), (0, -1), (0, 1), (1, -1), (1, 0), (1, 1)]
  else [(-1, 0), (1, 0), (0, -1), (0, 1)]

/-- The worklist loop of `countConnectedPixels`: dequeue a pixel, enqueue each
in-bounds, unvisited, non-background neighbor (marking it visited and counting
it at enqueue time).  Fuel bounds the recursion; `w * h + 1` always suffices
because each pixel is enqueued at most once. -/
def countLoop (w h : Nat) (data : PixelData) (bgColor : Color) (tolerance : Int) :
    Nat → List (Nat × Nat) → List Bool → Nat → Nat
  | 0, _, _, count => count
  | _ + 1, [], _, count => count
  | fuel + 1, (cx, cy) :: queue, visited, count =>
    let st := neighbors4.foldl
      (fun (st : List (Nat × Nat) × List Bool × Nat) d =>
        let nx : Int := (cx : Int) + d.1
        let ny : Int := (cy : Int) + d.2
        if 0 ≤ nx ∧ nx < (w : Int) ∧ 0 ≤ ny ∧ ny < (h : Int) then
          let ni := ny.toNat * w + nx.toNat
          if !(st.2.1.getD ni false) && !(isBackgroundColor data (ni * 4) bgColor tolerance) then
            (st.1 ++ [(nx.toNat, ny.toNat)], st.2.1.set ni true, st.2.2 + 1)
          else st
        else st)
      (queue, visited, count)
    countLoop w h data bgColor tolerance fuel st.1 st.2.1 st.2.2

/-- Embedding of `countConnectedPixels(startX, startY, w, h, data, bgColor,
tolerance)`: size of the 4-connected foreground region through the start
pixel, computed with a fresh visited set. -/
def countConnectedPixels (startX startY w h : Nat) (data : PixelData)
    (bgColor : Color) (tolerance : Int) : Nat :=
  let visited := (List.replicate (w * h) false).set (startY * w + startX) true
  countLoop w h data bgColor tolerance (w * h + 1) [(startX, startY)] visited 1

/-- The worklist loop of `markNoisePixels`: dequeue a pixel, overwrite its four
RGBA bytes with the background color, then enqueue unvisited non-background
4-neighbors (the membership test reads the partially repainted buffer exactly
as the source's in-place mutation does). -/
def markLoop (w h : Nat) (bgColor : Color) (tolerance : Int) :
    Nat → List (Nat × Nat) → PixelData → List Bool → PixelData × List Bool
  | 0, _, data, visited => (data, visited)
  | _ + 1, [], data, visited => (data, visited)
  | fuel + 1, (cx, cy) :: queue, data, visited =>
    let index := (cy * w + cx) * 4
    let data := ((((data.set index bgColor.r).set (index + 1) bgColor.g).set
      (index + 2) bgColor.b).set (index + 3) bgColor.a)
    let st := neighbors4.foldl
      (fun (st : List (Nat × Nat) × List Bool) d =>
        let nx : Int := (cx : Int) + d.1
        let ny : Int := (cy : Int) + d.2
        if 0 ≤ nx ∧ nx < (w : Int) ∧ 0 ≤ ny ∧ ny < (h : Int) then
          let ni := ny.toNat * w + nx.toNat
          if !(st.2.getD ni false) && !(isBackgroundColor data (ni * 4) bgColor tolerance) then
            (st.1 ++ [(nx.toNat, ny.toNat)], st.2.set ni true)
          else st
        else st)
      (queue, visited)
    markLoop w h bgColor tolerance fuel st.1 data st.2

/-- Embedding of `markNoisePixels(startX, startY, w, h, data, visited,
bgColor, tolerance)`: repaint the 4-connected region through the start pixel
to the background color, marking it in the caller's shared visited set. -/
def markNoisePixels (startX startY w h : Nat) (data : PixelData)
    (visited : List Bool) (bgColor : Color) (tolerance : Int) :
    PixelData × List Bool :=
  let visited := visited.set (startY * w + startX) true
  markLoop w h bgColor tolerance (w * h + 1) [(startX, startY)] data visited

/-- The row-major scan of `applyNoiseReduction`: for each unvisited
non-background pixel `i = y * w + x`, count its 4-connected region; when the
count is at most the threshold, repaint the region (mutating the buffer and
the scan's visited set). -/
def noiseScanLoop (w h : Nat) (bgColor : Color) (threshold tolerance : Int) :
    List Nat → PixelData → List Bool → PixelData
  | [], data, _ => data
  | i :: rest, data, visited =>
    if visited.getD i false || isBackgroundColor data (i * 4) bgColor tolerance then
      noiseScanLoop w h bgColor threshold tolerance rest data visited
    else
      let connectedPixels := countConnectedPixels (i % w) (i / w) w h data bgColor tolerance
      if (connectedPixels : Int) ≤ threshold then
        let dv := markNoisePixels (i % w) (i / w) w h data visited bgColor tolerance
        noiseScanLoop w h bgColor threshold tolerance rest dv.1 dv.2
      else
        noiseScanLoop w h bgColor threshold tolerance rest data visited

/-- Embedding of `applyNoiseReduction(data, w, h, bgColor, config)`.  The
configuration fields it reads are passed explicitly: `enable` is
`config.enableNoiseReduction`, `noiseThreshold` is `config.noiseThreshold`
(the source computes `config.noiseThreshold || 2`, so a zero threshold falls
back to 2), and `tolerance` is `config.tolerance`. -/
def applyNoiseReduction (data : PixelData) (w h : Nat) (bgColor : Color)
    (enable : Bool) (noiseThreshold tolerance : Int) : PixelData :=
  if !enable then data
  else
    let threshold : Int := if noiseThreshold = 0 then 2 else noiseThreshold
    noiseScanLoop w h bgColor threshold tolerance (List.range (w * h)) data
      (List.replicate (w * h) false)

/-- The running bounding box and pixel count of one flood fill (the object
`{ minX, minY, maxX, maxY, pixelCount }` returned by the source's fill). -/
structure FillResult where
  minX : Nat
  minY : Nat
  maxX : Nat
  maxY : Nat
  pixelCount : Nat
deriving DecidableEq, Repr

/-- The worklist loop of the detector's `floodFill`: dequeue a pixel, extend
the bounding box to it, enqueue each in-bounds, unvisited, non-background
neighbor (marking visited and counting at enqueue time). -/
def floodFillLoop (w h : Nat) (data : PixelData) (bgColor : Color)
    (tolerance : Int) (nbrs : List (Int × Int)) :
    Nat → List (Nat × Nat) → List Bool → FillResult → List Bool × FillResult
  | 0, _, visited, res => (visited, res)
  | _ + 1, [], visited, res => (visited, res)
  | fuel + 1, (cx, cy) :: queue, visited, res =>
    let res := { res with minX := min res.minX cx, minY := min res.minY cy,
                          maxX := max res.maxX cx, maxY := max res.maxY cy }
    let st := nbrs.foldl
      (fun (st : List (Nat × Nat) × List Bool × Nat) d =>
        let nx : Int := (cx : Int) + d.1
        let ny : Int := (cy : Int) + d.2
        if 0 ≤ nx ∧ nx < (w : Int) ∧ 0 ≤ ny ∧ ny < (h : Int) then
          let ni := ny.toNat * w + nx.toNat
          if !(st.2.1.getD ni false) && !(isBackgroundColor data (ni * 4) bgColor tolerance) then
            (st.1 ++ [(nx.toNat, ny.toNat)], st.2.1.set ni true, st.2.2 + 1)
          else st
        else st)
      (queue, visited, res.pixelCount)
    floodFillLoop w h data bgColor tolerance nbrs fuel st.1 st.2.1
      { res with pixelCount := st.2.2 }

/-- Embedding of the detector's inner `floodFill(startX, startY)`: seed the
queue with the start pixel (already marked visited, count 1) and run the
worklist loop with the configured connectivity. -/
def floodFill (startX startY w h : Nat) (data : PixelData) (visited : List Bool)
    (bgColor : Color) (tolerance : Int) (use8 : Bool) : List Bool × FillResult :=
  let visited := visited.set (startY * w + startX) true
  floodFillLoop w h data bgColor tolerance (neighborList use8) (w * h + 1)
    [(startX, startY)] visited ⟨startX, startY, startX, startY, 1⟩

/-- A sprite bounding rectangle in pixel-buffer coordinates. -/
structure Rect where
  x : Nat
  y : Nat
  w : Nat
  h : Nat
deriving DecidableEq, Repr

/-- A detected sprite record
`{ id, name: "sprite_<id>", rect, type: "simple" }`. -/
structure SpriteFrame where
  id : Nat
  name : String
  rect : Rect
  type : String
deriving DecidableEq, Repr

/-- The frame the detector pushes for a fill result:
`rect = (minX, minY, maxX - minX + 1, maxY - minY + 1)`. -/
def frameOfResult (id : Nat) (r : FillResult) : SpriteFrame :=
  ⟨id, "sprite_" ++ toString id,
   ⟨r.minX, r.minY, r.maxX - r.minX + 1, r.maxY - r.minY + 1⟩, "simple"⟩

/-- The detector's row-major scan: skip visited or background pixels, flood
fill from each remaining pixel, and push a frame (id = current frame count)
when the region's pixel count reaches `minSpriteSize`. -/
def detectScanLoop (w h : Nat) (data : PixelData) (bgColor : Color)
    (tolerance : Int) (use8 : Bool) (minSpriteSize : Int) :
    List Nat → List Bool → List SpriteFrame → List SpriteFrame
  | [], _, frames => frames
  | i :: rest, visited, frames =>
    if visited.getD i false || isBackgroundColor data (i * 4) bgColor tolerance then
      detectScanLoop w h data bgColor tolerance use8 minSpriteSize rest visited frames
    else
      let vr := floodFill (i % w) (i / w) w h data visited bgColor tolerance use8
      if minSpriteSize ≤ (vr.2.pixelCount : Int) then
        detectScanLoop w h data bgColor tolerance use8 minSpriteSize rest vr.1
          (frames ++ [frameOfResult frames.length vr.2])
      else
        detectScanLoop w h data bgColor tolerance use8 minSpriteSize rest vr.1 frames

/-- The same scan, collecting every region's fill result instead of filtering
by `minSpriteSize`; used to state that the emitted frames are exactly the
regions whose pixel count reaches the configured minimum. -/
def regionScanLoop (w h : Nat) (data : PixelData) (bgColor : Color)
    (tolerance : Int) (use8 : Bool) :
    List Nat → List Bool → List FillResult
  | [], _ => []
  | i :: rest, visited =>
    if visited.getD i false || isBackgroundColor data (i * 4) bgColor tolerance then
      regionScanLoop w h data bgColor tolerance use8 rest visited
    else
      let vr := floodFill (i % w) (i / w) w h data visited bgColor tolerance use8
      vr.2 :: regionScanLoop w h data bgColor tolerance use8 rest vr.1

/-- Frames for a list of fill results, ids numbered consecutively from
`startId` in list order. -/
def framesFrom (startId : Nat) : List FillResult → List SpriteFrame
  | [] => []
  | r :: rs => frameOfResult startId r :: framesFrom (startId + 1) rs

/-- The full detection configuration after merging over `DEFAULT_CONFIG`
(the fields the engine's observable behavior depends on; the source's
`enableLogging`, `useWebWorker`, `chunkSize` and `useWebGL` fields only
select logging and the execution strategy and are not modelled). -/
structure DetectionConfig where
  tolerance : Int
  minSpriteSize : Int
  use8WayConnectivity : Bool
  algorithm : String
  enableCache : Bool
  forceRecalculation : Bool
  enableNoiseReduction : Bool
  noiseThreshold : Int
deriving DecidableEq, Repr

/-- The defaults of `DEFAULT_CONFIG` in the source. -/
def DEFAULT_CONFIG : DetectionConfig :=
  { tolerance := 10, minSpriteSize := 4, use8WayConnectivity := false,
    algorithm := "floodFill", enableCache := true, forceRecalculation := false,
    enableNoiseReduction := true, noiseThreshold := 2 }

/-- A caller-supplied partial configuration (`none` = field absent). -/
structure PartialConfig where
  tolerance : Option Int := none
  minSpriteSize : Option Int := none
  use8WayConnectivity : Option Bool := none
  algorithm : Option String := none
  enableCache : Option Bool := none
  forceRecalculation : Option Bool := none
  enableNoiseReduction : Option Bool := none
  noiseThreshold : Option Int := none
deriving DecidableEq, Repr

/-- The spread merge `{ ...DEFAULT_CONFIG, ...config }`. -/
def mergeConfig (config : PartialConfig) : DetectionConfig :=
  { tolerance := config.tolerance.getD DEFAULT_CONFIG.tolerance,
    minSpriteSize := config.minSpriteSize.getD DEFAULT_CONFIG.minSpriteSize,
    use8WayConnectivity := config.use8WayConnectivity.getD DEFAULT_CONFIG.use8WayConnectivity,
    algorithm := config.algorithm.getD DEFAULT_CONFIG.algorithm,
    enableCache := config.enableCache.getD DEFAULT_CONFIG.enableCache,
    forceRecalculation := config.forceRecalculation.getD DEFAULT_CONFIG.forceRecalculation,
    enableNoiseReduction := config.enableNoiseReduction.getD DEFAULT_CONFIG.enableNoiseReduction,
    noiseThreshold := config.noiseThreshold.getD DEFAULT_CONFIG.noiseThreshold }

/-- A full configuration viewed as a caller-supplied one (every field
present); this is how the orchestrator hands `finalConfig` to the selected
algorithm. -/
def toPartial (c : DetectionConfig) : PartialConfig :=
  { tolerance := some c.tolerance, minSpriteSize := some c.minSpriteSize,
    use8WayConnectivity := some c.use8WayConnectivity, algorithm := some c.algorithm,
    enableCache := some c.enableCache, forceRecalculation := some c.forceRecalculation,
    enableNoiseReduction := some c.enableNoiseReduction,
    noiseThreshold := some c.noiseThreshold }

/-- A loaded image: natural dimensions plus the RGBA pixels obtained by
drawing it to a canvas (the image-element checks of `validateInputs`, which
concern the DOM type and load state, are outside the embedding: every
modelled image is a valid, fully loaded one). -/
structure Image where
  naturalWidth : Nat
  naturalHeight : Nat
  data : PixelData
deriving DecidableEq, Repr

/-- Embedding of the configuration checks of
`validateInputs(imageElement, config)`: a supplied tolerance outside
`[0, 255]` or a supplied minimum sprite size below 1 is rejected with the
source's error message; absent fields pass. -/
def validateInputs (config : PartialConfig) : Except String Unit :=
  if (config.tolerance.map (fun t => decide (t < 0) || decide (255 < t))).getD false then
    Except.error "La tolerancia debe estar entre 0 y 255"
  else if (config.minSpriteSize.map (fun m => decide (m < 1))).getD false then
    Except.error "El tamaño mínimo de sprite debe ser al menos 1"
  else Except.ok ()

/-- Embedding of `floodFillAlgorithm(imageElement, config)`: validate, merge
the configuration over the defaults, return an empty frame list for a
zero-dimension image, otherwise estimate the background color, optionally run
noise reduction, and scan.  A validation throw is rejected with the source's
message prefix. -/
def floodFillAlgorithm (imageElement : Image) (config : PartialConfig) :
    Except String (List SpriteFrame) :=
  match validateInputs config with
  | Except.error e => Except.error ("Error en detección floodFill: " ++ e)
  | Except.ok _ =>
    let finalConfig := mergeConfig config
    let w := imageElement.naturalWidth
    let h := imageElement.naturalHeight
    if w = 0 ∨ h = 0 then Except.ok []
    else
      let bgColor := detectBackgroundColor imageElement.data w h
      let data := applyNoiseReduction imageElement.data w h bgColor
        finalConfig.enableNoiseReduction finalConfig.noiseThreshold finalConfig.tolerance
      Except.ok (detectScanLoop w h data bgColor finalConfig.tolerance
        finalConfig.use8WayConnectivity finalConfig.minSpriteSize
        (List.range (w * h)) (List.replicate (w * h) false) [])

/-- The region list underlying a `floodFillAlgorithm` run: same pipeline, but
collecting every region's fill result.  It takes exactly the configuration
fields the pipeline reads before the `minSpriteSize` filter, so it is
independent of the minimum sprite size by construction. -/
def detectRegions (imageElement : Image) (tolerance : Int) (use8 : Bool)
    (enableNoise : Bool) (noiseThreshold : Int) : List FillResult :=
  let w := imageElement.naturalWidth
  let h := imageElement.naturalHeight
  let bgColor := detectBackgroundColor imageElement.data w h
  let data := applyNoiseReduction imageElement.data w h bgColor enableNoise
    noiseThreshold tolerance
  regionScanLoop w h data bgColor tolerance use8 (List.range (w * h))
    (List.replicate (w * h) false)

/-- Embedding of `contourAlgorithm(imageElement, config)`: the contour
strategy is an unimplemented placeholder that delegates to the flood fill. -/
def contourAlgorithm (imageElement : Image) (config : PartialConfig) :
    Except String (List SpriteFrame) :=
  floodFillAlgorithm imageElement config

/-- Embedding of `aiDetectionAlgorithm(imageElement, config)`: the AI
strategy is an unimplemented placeholder that delegates to the flood fill. -/
def aiDetectionAlgorithm (imageElement : Image) (config : PartialConfig) :
    Except String (List SpriteFrame) :=
  floodFillAlgorithm imageElement config

/-- The `detectionAlgorithms` plugin table (string-keyed object lookup;
`none` for an unknown key). -/
def detectionAlgorithms (name : String) :
    Option (Image → PartialConfig → Except String (List SpriteFrame)) :=
  if name = "floodFill" then some floodFillAlgorithm
  else if name = "contour" then some contourAlgorithm
  else if name = "ai" then some aiDetectionAlgorithm
  else none

/-- The cache key of `getCacheKey(imageElement, config)`: image dimensions
plus the critical configuration subset `{ tolerance, minSpriteSize,
use8WayConnectivity, algorithm }` (the source serializes these into a string;
the key record is injective in the same data). -/
structure CacheKey where
  naturalWidth : Nat
  naturalHeight : Nat
  tolerance : Int
  minSpriteSize : Int
  use8WayConnectivity : Bool
  algorithm : String
deriving DecidableEq, Repr

/-- Embedding of `getCacheKey(imageElement, config)`. -/
def getCacheKey (imageElement : Image) (config : DetectionConfig) : CacheKey :=
  ⟨imageElement.naturalWidth, imageElement.naturalHeight, config.tolerance,
   config.minSpriteSize, config.use8WayConnectivity, config.algorithm⟩

/-- The module-level `detectionCache` `Map`, modelled as an insertion-ordered
association list (a JavaScript `Map` iterates keys in insertion order). -/
abbrev DetectionCache := List (CacheKey × List SpriteFrame)

/-- The source's `CACHE_MAX_SIZE`. -/
def CACHE_MAX_SIZE : Nat := 10

/-- `Map.get`: first (and only) binding of the key. -/
def cacheGet : DetectionCache → CacheKey → Option (List SpriteFrame)
  | [], _ => none
  | (k, v) :: rest, key => if k = key then some v else cacheGet rest key

/-- `Map.set`: update an existing key in place (keeping its insertion
position, as `Map.set` does) or append a new binding at the end. -/
def cacheSet : DetectionCache → CacheKey → List SpriteFrame → DetectionCache
  | [], key, v => [(key, v)]
  | (k, w) :: rest, key, v =>
    if k = key then (k, v) :: rest else (k, w) :: cacheSet rest key v

/-- Embedding of `manageCacheSize()`: when the size exceeds
`CACHE_MAX_SIZE`, delete the first key in iteration order, i.e. the
earliest-inserted entry. -/
def manageCacheSize (cache : DetectionCache) : DetectionCache :=
  if CACHE_MAX_SIZE < cache.length then cache.tail else cache

deriving instance DecidableEq for Except

/-- Result of one orchestrator call: the settled promise, the cache state
after the call, and whether the fill algorithm was invoked (the call-counter
observable of the spec's cache property). -/
structure DetectOutcome where
  result : Except String (List SpriteFrame)
  cache : DetectionCache
  ranAlgorithm : Bool
deriving DecidableEq, Repr

/-- The orchestrator's algorithm branch: select the strategy by name (unknown
names fall back to flood fill), run it on `finalConfig`, and cache a
successful result (insertion followed by `manageCacheSize`) when caching is
enabled. -/
def runSelectedAlgorithm (imageElement : Image) (finalConfig : DetectionConfig)
    (cache : DetectionCache) : DetectOutcome :=
  let algorithm := (detectionAlgorithms finalConfig.algorithm).getD floodFillAlgorithm
  match algorithm imageElement (toPartial finalConfig) with
  | Except.ok result =>
    if finalConfig.enableCache then
      ⟨Except.ok result,
       manageCacheSize (cacheSet cache (getCacheKey imageElement finalConfig) result), true⟩
    else ⟨Except.ok result, cache, true⟩
  | Except.error e => ⟨Except.error e, cache, true⟩

/-- Embedding of `detectSpritesFromImage(imageElement, config)` on the
main-thread execution path: validate (rejecting with the source's message
prefix), merge the configuration, then — when caching is enabled and
recalculation is not forced — return a cache hit without running any
algorithm; otherwise run the selected algorithm and cache its result. -/
def detectSpritesFromImage (imageElement : Image) (config : PartialConfig)
    (cache : DetectionCache) : DetectOutcome :=
  match validateInputs config with
  | Except.error e =>
    ⟨Except.error ("Error en detección de sprites: " ++ e), cache, false⟩
  | Except.ok _ =>
    let finalConfig := mergeConfig config
    if finalConfig.enableCache ∧ finalConfig.forceRecalculation = false then
      match cacheGet cache (getCacheKey imageElement finalConfig) with
      | some cached => ⟨Except.ok cached, cache, false⟩
      | none => runSelectedAlgorithm imageElement finalConfig cache
    else runSelectedAlgorithm imageElement finalConfig cache

/-- Embedding of the worker code string's `processImageData(imageData,
config)`: the worker copy estimates the background from the four corners
only and runs the scan directly — it has no noise-reduction pre-pass. -/
def workerProcessImageData (data : PixelData) (w h : Nat)
    (config : DetectionConfig) : List SpriteFrame :=
  let bgColor := workerDetectBackgroundColor data w h
  detectScanLoop w h data bgColor config.tolerance config.use8WayConnectivity
    config.minSpriteSize (List.range (w * h)) (List.replicate (w * h) false) []

/-! ## Concrete test images

Synthetic buffers used to settle the claims on explicit inputs. -/

/-- Opaque white, the background color of the synthetic images. -/
def white : Color := ⟨255, 255, 255, 255⟩

/-- Opaque red, the foreground color of the synthetic images. -/
def red : Color := ⟨255, 0, 0, 255⟩

/-- Opaque blue, used for border pixels in the estimator test image. -/
def blue : Color := ⟨0, 0, 255, 255⟩

/-- Build a row-major RGBA buffer from a color function over `(x, y)`. -/
def mkImageData (w h : Nat) (f : Nat → Nat → Color) : PixelData :=
  (List.range h).flatMap (fun y => (List.range w).flatMap (fun x =>
    [(f x y).r, (f x y).g, (f x y).b, (f x y).a]))

/-- A 10×10 white image with a 3×3 red block at `(2, 2)` — the spec's
scenario image (one 9-pixel square block surrounded by background). -/
def img10 : Image :=
  ⟨10, 10, mkImageData 10 10 (fun x y =>
    if 2 ≤ x ∧ x ≤ 4 ∧ 2 ≤ y ∧ y ≤ 4 then red else white)⟩

/-- A 5×5 white image with a single red pixel at `(2, 2)` — a 1-pixel square
block surrounded by background. -/
def img1px : Image :=
  ⟨5, 5, mkImageData 5 5 (fun x y => if x = 2 ∧ y = 2 then red else white)⟩

/-- A 7×7 white image with a 1-pixel red speck at `(1, 1)`, a 2-pixel red
speck at `(4, 1)`–`(5, 1)`, and a 3×3 red block at `(2, 3)`. -/
def imgNoise : Image :=
  ⟨7, 7, mkImageData 7 7 (fun x y =>
    if (x = 1 ∧ y = 1) ∨ ((x = 4 ∨ x = 5) ∧ y = 1) ∨
       (2 ≤ x ∧ x ≤ 4 ∧ 3 ≤ y ∧ y ≤ 5) then red else white)⟩

/-- The same 7×7 image with the two specks removed: what `imgNoise`'s buffer
must become after noise reduction repaints them to the background color. -/
def imgNoiseClean : Image :=
  ⟨7, 7, mkImageData 7 7 (fun x y =>
    if 2 ≤ x ∧ x ≤ 4 ∧ 3 ≤ y ∧ y ≤ 5 then red else white)⟩

/-- A 7×7 white image with two 2×2 red blocks touching only diagonally:
at `(1, 1)` and at `(3, 3)`. -/
def imgDiag : Image :=
  ⟨7, 7, mkImageData 7 7 (fun x y =>
    if (1 ≤ x ∧ x ≤ 2 ∧ 1 ≤ y ∧ y ≤ 2) ∨ (3 ≤ x ∧ x ≤ 4 ∧ 3 ≤ y ∧ y ≤ 4)
    then red else white)⟩

/-- A 7×7 white image with two 2×2 red blocks separated by a background
column: at `(1, 1)` and at `(4, 1)`. -/
def imgSep : Image :=
  ⟨7, 7, mkImageData 7 7 (fun x y =>
    if (1 ≤ x ∧ x ≤ 2 ∧ 1 ≤ y ∧ y ≤ 2) ∨ (4 ≤ x ∧ x ≤ 5 ∧ 1 ≤ y ∧ y ≤ 2)
    then red else white)⟩

/-- A 5×5 image with red corners, a blue border elsewhere, and a white
interior: full-border sampling sees 4 red and 16 blue samples, while
corner-only sampling sees only the 4 red pixels. -/
def imgBorderMix : Image :=
  ⟨5, 5, mkImageData 5 5 (fun x y =>
    if (x = 0 ∨ x = 4) ∧ (y = 0 ∨ y = 4) then red
    else if x = 0 ∨ x = 4 ∨ y = 0 ∨ y = 4 then blue
    else white)⟩

/-- An 8×8 white image with a 2×2 (k = 4 pixel) red block at `(3, 3)` — a
second instance of the single-square-block family. -/
def img8 : Image :=
  ⟨8, 8, mkImageData 8 8 (fun x y =>
    if 3 ≤ x ∧ x ≤ 4 ∧ 3 ≤ y ∧ y ≤ 4 then red else white)⟩

/-- A 2×2 all-white image (no foreground at all). -/
def img2 : Image := ⟨2, 2, mkImageData 2 2 (fun _ _ => white)⟩

/-- A 3×3 all-white image, used to exhibit image-independence of validation
failures. -/
def img3 : Image := ⟨3, 3, mkImageData 3 3 (fun _ _ => white)⟩

/-! ## Theorems -/

set_option maxRecDepth 1000000

/-- Core of the C1 characterization, stated over the four channel values the
predicate reads. -/
theorem isBackgroundColor_rules_aux (r g b a : Nat) (bgColor : Color)
    (tolerance : Int) :
    (if a = 0 then true
     else if bgColor.a < 255 ∧ 0 < a then false
     else decide (((natDist r bgColor.r + natDist g bgColor.g
       + natDist b bgColor.b : Nat) : Int) ≤ tolerance)) = true ↔
      (a = 0 ∨
       (¬(bgColor.a < 255 ∧ a ≠ 0) ∧
        ((natDist r bgColor.r + natDist g bgColor.g
          + natDist b bgColor.b : Nat) : Int) ≤ tolerance)) := by
  by_cases h0 : a = 0
  · simp [h0]
  · by_cases h1 : bgColor.a < 255
    · simp [h0, h1, Nat.pos_of_ne_zero h0]
    · simp [h0, h1]

/-- Claim C1: the background membership predicate is fully characterized by
three ordered rules — a pixel with alpha 0 is background; otherwise, if the
reference color's alpha is below 255 and the pixel's alpha is nonzero, the
pixel is not background; otherwise the pixel is background exactly when the
RGB Manhattan distance (alpha excluded) is at most the tolerance. -/
theorem isBackgroundColor_three_rules (data : PixelData) (index : Nat)
    (bgColor : Color) (tolerance : Int) :
    isBackgroundColor data index bgColor tolerance = true ↔
      (data.getD (index + 3) 0 = 0 ∨
       (¬(bgColor.a < 255 ∧ data.getD (index + 3) 0 ≠ 0) ∧
        ((natDist (data.getD index 0) bgColor.r
          + natDist (data.getD (index + 1) 0) bgColor.g
          + natDist (data.getD (index + 2) 0) bgColor.b : Nat) : Int) ≤ tolerance)) :=
  isBackgroundColor_rules_aux (data.getD index 0) (data.getD (index + 1) 0)
    (data.getD (index + 2) 0) (data.getD (index + 3) 0) bgColor tolerance

/-- Claim C3 (divergence witness): on a 5×5 image whose four corners are red
but whose border is otherwise blue, the main-thread estimator (full border,
stride `max(1, floor(dim/50))`) returns blue, while the estimator duplicated
inside the worker code string samples only the four corners and returns red.
The worker-dispatched execution path therefore does not use full-border
sampling, contradicting the specification's requirement. -/
theorem worker_estimator_corner_only_divergence :
    detectBackgroundColor imgBorderMix.data 5 5 = blue ∧
    workerDetectBackgroundColor imgBorderMix.data 5 5 = red ∧
    workerDetectBackgroundColor imgBorderMix.data 5 5 ≠
      detectBackgroundColor imgBorderMix.data 5 5 := by
  refine ⟨by decide, by decide, by decide⟩

/-- Claim C4: on a 7×7 buffer holding a 1-pixel speck, a 2-pixel speck and a
3×3 block, noise reduction (threshold 2) repaints both specks — every RGBA
channel of every speck pixel becomes the background color, i.e. the processed
buffer equals the buffer of the speck-free image — and detection with
`minSpriteSize = 1` emits only the 3×3 block's frame. -/
theorem noise_regions_repainted_and_suppressed :
    detectBackgroundColor imgNoise.data 7 7 = white ∧
    applyNoiseReduction imgNoise.data 7 7 white true 2 10 = imgNoiseClean.data ∧
    floodFillAlgorithm imgNoise { minSpriteSize := some 1 } =
      Except.ok [⟨0, "sprite_0", ⟨2, 3, 3, 3⟩, "simple"⟩] := by
  refine ⟨by decide, by decide, by decide⟩

/-- Claim C5: two 2×2 blocks that touch only diagonally yield two frames
under 4-connectivity and one merged frame under 8-connectivity; two 2×2
blocks separated by a background column yield two frames under both. -/
theorem connectivity_separation :
    floodFillAlgorithm imgDiag { use8WayConnectivity := some false } =
      Except.ok [⟨0, "sprite_0", ⟨1, 1, 2, 2⟩, "simple"⟩,
                 ⟨1, "sprite_1", ⟨3, 3, 2, 2⟩, "simple"⟩] ∧
    floodFillAlgorithm imgDiag { use8WayConnectivity := some true } =
      Except.ok [⟨0, "sprite_0", ⟨1, 1, 4, 4⟩, "simple"⟩] ∧
    floodFillAlgorithm imgSep { use8WayConnectivity := some false } =
      Except.ok [⟨0, "sprite_0", ⟨1, 1, 2, 2⟩, "simple"⟩,
                 ⟨1, "sprite_1", ⟨4, 1, 2, 2⟩, "simple"⟩] ∧
    floodFillAlgorithm imgSep { use8WayConnectivity := some true } =
      Except.ok [⟨0, "sprite_0", ⟨1, 1, 2, 2⟩, "simple"⟩,
                 ⟨1, "sprite_1", ⟨4, 1, 2, 2⟩, "simple"⟩] := by
  refine ⟨by decide, by decide, by decide, by decide⟩

/-- Claim C10: a configured noise threshold of 0 is falsy, so
`config.noiseThreshold || 2` makes the noise filter use threshold 2: the
pre-pass behaves identically to one configured with threshold 2, and on the
7×7 speck image with `noiseThreshold = 0` and `minSpriteSize = 1` both specks
(sizes 1 and 2) are still repainted, leaving only the 3×3 block's frame. -/
theorem noise_threshold_zero_falls_back_to_two :
    (∀ (data : PixelData) (w h : Nat) (bgColor : Color) (enable : Bool)
        (tolerance : Int),
        applyNoiseReduction data w h bgColor enable 0 tolerance =
          applyNoiseReduction data w h bgColor enable 2 tolerance) ∧
    floodFillAlgorithm imgNoise { minSpriteSize := some 1, noiseThreshold := some 0 } =
      Except.ok [⟨0, "sprite_0", ⟨2, 3, 3, 3⟩, "simple"⟩] := by
  refine ⟨fun data w h bgColor enable tolerance => rfl, by decide⟩

/-- Unfolding lemma: frames for a cons of fill results. -/
theorem framesFrom_cons (startId : Nat) (r : FillResult) (rs : List FillResult) :
    framesFrom startId (r :: rs) = frameOfResult startId r :: framesFrom (startId + 1) rs :=
  rfl

/-- The detector's scan emits exactly the regions of the unfiltered scan
whose pixel count reaches `minSpriteSize`, renumbered consecutively after the
frames accumulated so far: the `minSpriteSize` filter is orthogonal to region
discovery. -/
theorem detectScanLoop_eq_regions (w h : Nat) (data : PixelData) (bgColor : Color)
    (tolerance : Int) (use8 : Bool) (m : Int) (idxs : List Nat) :
    ∀ (visited : List Bool) (frames : List SpriteFrame),
      detectScanLoop w h data bgColor tolerance use8 m idxs visited frames =
        frames ++ framesFrom frames.length
          ((regionScanLoop w h data bgColor tolerance use8 idxs visited).filter
            (fun r => decide (m ≤ (r.pixelCount : Int)))) := by
  induction idxs with
  | nil =>
    intro visited frames
    simp [detectScanLoop, regionScanLoop, framesFrom]
  | cons i rest ih =>
    intro visited frames
    rw [detectScanLoop, regionScanLoop]
    by_cases hskip :
        (visited.getD i false || isBackgroundColor data (i * 4) bgColor tolerance) = true
    · rw [if_pos hskip, if_pos hskip, ih]
    · rw [if_neg hskip, if_neg hskip]
      rw [List.filter_cons]
      by_cases hm : m ≤
          (((floodFill (i % w) (i / w) w h data visited bgColor tolerance use8).2.pixelCount : Nat) : Int)
      · rw [if_pos (by simpa using hm), if_pos (by simpa using hm), ih, framesFrom_cons]
        simp [List.append_assoc]
      · rw [if_neg (by simpa using hm), if_neg (by simpa using hm), ih]

/-- A successful, nonzero-dimension `floodFillAlgorithm` run returns exactly
the regions of its pipeline whose pixel count reaches the configured
`minSpriteSize`, numbered from 0 in discovery order. -/
theorem floodFillAlgorithm_eq_filtered_regions (imageElement : Image)
    (config : PartialConfig) (hval : validateInputs config = Except.ok ())
    (hw : imageElement.naturalWidth ≠ 0) (hh : imageElement.naturalHeight ≠ 0) :
    floodFillAlgorithm imageElement config =
      Except.ok (framesFrom 0
        ((detectRegions imageElement (mergeConfig config).tolerance
            (mergeConfig config).use8WayConnectivity
            (mergeConfig config).enableNoiseReduction
            (mergeConfig config).noiseThreshold).filter
          (fun r => decide ((mergeConfig config).minSpriteSize ≤ (r.pixelCount : Int))))) := by
  unfold floodFillAlgorithm detectRegions
  rw [hval]
  dsimp only
  rw [if_neg (by simp [hw, hh])]
  rw [detectScanLoop_eq_regions]
  simp

/-- Claim C2 (counterexample): a 5×5 buffer with exactly one 1-pixel square
foreground block at `(2, 2)` and `minSpriteSize = 1 ≤ k = 1` yields zero
frames — the default noise filter (threshold 2) repaints the block before
detection — not the single frame `{x:2, y:2, w:1, h:1}` the claim requires. -/
theorem single_pixel_block_counterexample :
    floodFillAlgorithm img1px { minSpriteSize := some 1 } = Except.ok [] ∧
    floodFillAlgorithm img1px { minSpriteSize := some 1 } ≠
      Except.ok [⟨0, "sprite_0", ⟨2, 2, 1, 1⟩, "simple"⟩] := by
  have h : floodFillAlgorithm img1px { minSpriteSize := some 1 } = Except.ok [] := by
    decide
  exact ⟨h, by rw [h]; decide⟩

/-- For an image whose detection pipeline (default tolerance, 4-connectivity,
noise reduction with threshold 2) discovers exactly one region, detection
with any validated `minSpriteSize = m` emits that region's frame exactly when
its pixel count reaches `m`, and nothing otherwise. -/
theorem single_region_detection (imageElement : Image) (res : FillResult)
    (m : Int) (hm : 1 ≤ m)
    (hw : imageElement.naturalWidth ≠ 0) (hh : imageElement.naturalHeight ≠ 0)
    (hreg : detectRegions imageElement 10 false true 2 = [res]) :
    floodFillAlgorithm imageElement { minSpriteSize := some m } =
      Except.ok (if m ≤ (res.pixelCount : Int) then [frameOfResult 0 res] else []) := by
  have hval : validateInputs { minSpriteSize := some m } = Except.ok () := by
    unfold validateInputs
    simp [Int.not_lt.mpr hm]
  rw [floodFillAlgorithm_eq_filtered_regions imageElement _ hval hw hh]
  have hreg2 : detectRegions imageElement
      (mergeConfig { minSpriteSize := some m }).tolerance
      (mergeConfig { minSpriteSize := some m }).use8WayConnectivity
      (mergeConfig { minSpriteSize := some m }).enableNoiseReduction
      (mergeConfig { minSpriteSize := some m }).noiseThreshold =
      [res] := hreg
  rw [hreg2]
  show Except.ok (framesFrom 0 (List.filter _ [res])) = _
  rw [List.filter_cons]
  by_cases hc : m ≤ (res.pixelCount : Int)
  · rw [if_pos (by simpa using hc), if_pos hc]
    rfl
  · rw [if_neg (by simpa using hc), if_neg hc]
    rfl

/-- Claim C2 (amended): for buffers of the single-square-block family whose
block survives the default noise threshold — the spec's 10×10 image with a
3×3 (k = 9) block at `(2, 2)`, and an 8×8 image with a 2×2 (k = 4) block at
`(3, 3)` — detection with any `minSpriteSize = m ≤ k` returns exactly one
frame whose rect exactly bounds the block, and detection with `m > k`
returns zero frames. -/
theorem single_block_detection (m : Int) (hm : 1 ≤ m) :
    (floodFillAlgorithm img10 { minSpriteSize := some m } =
      Except.ok (if m ≤ 9 then
        [⟨0, "sprite_0", ⟨2, 2, 3, 3⟩, "simple"⟩] else [])) ∧
    (floodFillAlgorithm img8 { minSpriteSize := some m } =
      Except.ok (if m ≤ 4 then
        [⟨0, "sprite_0", ⟨3, 3, 2, 2⟩, "simple"⟩] else [])) :=
  ⟨single_region_detection img10 ⟨2, 2, 4, 4, 9⟩ m hm (by decide) (by decide) (by decide),
   single_region_detection img8 ⟨3, 3, 4, 4, 4⟩ m hm (by decide) (by decide) (by decide)⟩

/-- Witness for `single_block_detection` at the spec's own parameters
`minSpriteSize = 4 ≤ k = 9`. -/
theorem single_block_detection_witness :
    (1 : Int) ≤ 4 ∧
    floodFillAlgorithm img10 { minSpriteSize := some 4 } =
      Except.ok (if (4 : Int) ≤ 9 then
        [⟨0, "sprite_0", ⟨2, 2, 3, 3⟩, "simple"⟩] else []) :=
  ⟨by decide, (single_block_detection 4 (by decide)).1⟩

/-! ## Cache lemmas -/

/-- Setting an absent key appends the binding at the end (a fresh `Map.set`
inserts in last position). -/
theorem cacheSet_absent (cache : DetectionCache) (key : CacheKey)
    (v : List SpriteFrame) (h : cacheGet cache key = none) :
    cacheSet cache key v = cache ++ [(key, v)] := by
  induction cache with
  | nil => rfl
  | cons kv rest ih =>
    obtain ⟨k, w⟩ := kv
    rw [cacheGet] at h
    by_cases hk : k = key
    · rw [if_pos hk] at h; exact absurd h (by simp)
    · rw [if_neg hk] at h
      rw [cacheSet, if_neg hk, ih h]
      rfl

/-- Looking up a key just appended after a list that does not contain it. -/
theorem cacheGet_append_self (cache : DetectionCache) (key : CacheKey)
    (v : List SpriteFrame) (h : cacheGet cache key = none) :
    cacheGet (cache ++ [(key, v)]) key = some v := by
  induction cache with
  | nil => simp [cacheGet]
  | cons kv rest ih =>
    obtain ⟨k, w⟩ := kv
    rw [cacheGet] at h
    by_cases hk : k = key
    · rw [if_pos hk] at h; exact absurd h (by simp)
    · rw [if_neg hk] at h
      rw [List.cons_append, cacheGet, if_neg hk]
      exact ih h

/-- After a miss, storing the result and trimming the cache leaves the new
binding retrievable: trimming only ever deletes the earliest-inserted entry,
never the one just appended. -/
theorem cacheGet_insert_manage (cache : DetectionCache) (key : CacheKey)
    (v : List SpriteFrame) (h : cacheGet cache key = none) :
    cacheGet (manageCacheSize (cacheSet cache key v)) key = some v := by
  rw [cacheSet_absent cache key v h]
  unfold manageCacheSize
  by_cases hlen : CACHE_MAX_SIZE < (cache ++ [(key, v)]).length
  · rw [if_pos hlen]
    cases cache with
    | nil => simp [CACHE_MAX_SIZE] at hlen
    | cons kv rest =>
      obtain ⟨k, w⟩ := kv
      rw [cacheGet] at h
      by_cases hk : k = key
      · rw [if_pos hk] at h; exact absurd h (by simp)
      · rw [if_neg hk] at h
        rw [List.cons_append, List.tail_cons]
        exact cacheGet_append_self rest key v h
  · rw [if_neg hlen]
    exact cacheGet_append_self cache key v h

/-- Setting a key grows the cache by at most one binding. -/
theorem cacheSet_length_le (cache : DetectionCache) (key : CacheKey)
    (v : List SpriteFrame) :
    (cacheSet cache key v).length ≤ cache.length + 1 := by
  induction cache with
  | nil => simp [cacheSet]
  | cons kv rest ih =>
    obtain ⟨k, w⟩ := kv
    rw [cacheSet]
    by_cases hk : k = key
    · rw [if_pos hk]; simp
    · rw [if_neg hk]
      simpa using Nat.succ_le_succ ih

/-- Every algorithm the dispatch table can select is the flood fill: the
known names map to `floodFillAlgorithm` or to placeholders that delegate to
it, and unknown names fall back to it. -/
theorem selected_algorithm_eq_floodFill (s : String) :
    (detectionAlgorithms s).getD floodFillAlgorithm = floodFillAlgorithm := by
  unfold detectionAlgorithms
  split_ifs <;> rfl

/-- Claim C6: with caching enabled and `forceRecalculation = false`, a second
`detectSpritesFromImage` call whose image dimensions and critical config
fields (tolerance, minSpriteSize, connectivity, algorithm) agree with a first
successful call's — i.e. whose cache key is identical — returns the first
call's result from the cache without invoking the fill algorithm; and
whenever the merged configuration has `forceRecalculation = true`, a
validated call always invokes the fill algorithm. -/
theorem cache_hit_and_force_recalculation :
    (∀ (imageElement imageElement2 : Image) (config config2 : PartialConfig)
        (cache : DetectionCache) (r : List SpriteFrame),
        (mergeConfig config).enableCache = true →
        (mergeConfig config).forceRecalculation = false →
        (mergeConfig config2).enableCache = true →
        (mergeConfig config2).forceRecalculation = false →
        validateInputs config2 = Except.ok () →
        getCacheKey imageElement2 (mergeConfig config2) =
          getCacheKey imageElement (mergeConfig config) →
        (detectSpritesFromImage imageElement config cache).result = Except.ok r →
        (detectSpritesFromImage imageElement2 config2
            (detectSpritesFromImage imageElement config cache).cache).result =
          Except.ok r ∧
        (detectSpritesFromImage imageElement2 config2
            (detectSpritesFromImage imageElement config cache).cache).ranAlgorithm =
          false) ∧
    (∀ (imageElement : Image) (config : PartialConfig) (cache : DetectionCache),
        validateInputs config = Except.ok () →
        (mergeConfig config).forceRecalculation = true →
        (detectSpritesFromImage imageElement config cache).ranAlgorithm = true) := by
  constructor
  · intro imageElement imageElement2 config config2 cache r hec hfr hec2 hfr2 hval2 hkey hr
    cases hval : validateInputs config with
    | error e =>
      rw [detectSpritesFromImage, hval] at hr
      exact absurd hr (by simp)
    | ok u =>
      obtain ⟨⟩ := u
      have hstep : ∀ c : DetectionCache, detectSpritesFromImage imageElement config c =
          (match cacheGet c (getCacheKey imageElement (mergeConfig config)) with
           | some cached =>
             ⟨Except.ok cached, c, false⟩
           | none => runSelectedAlgorithm imageElement (mergeConfig config) c) := by
        intro c
        rw [detectSpritesFromImage, hval]
        dsimp only
        rw [if_pos (show _ ∧ _ from ⟨hec, hfr⟩)]
      have hkey1 : cacheGet (detectSpritesFromImage imageElement config cache).cache
          (getCacheKey imageElement (mergeConfig config)) = some r := by
        cases hget : cacheGet cache (getCacheKey imageElement (mergeConfig config)) with
        | some cached =>
          have ho : detectSpritesFromImage imageElement config cache =
              ⟨Except.ok cached, cache, false⟩ := by
            rw [hstep, hget]
          rw [ho] at hr
          have hres : cached = r := by simpa using hr
          rw [ho]
          dsimp only
          rw [hget, hres]
        | none =>
          cases halg : ((detectionAlgorithms (mergeConfig config).algorithm).getD
              floodFillAlgorithm) imageElement (toPartial (mergeConfig config)) with
          | error e =>
            rw [hstep, hget] at hr
            dsimp only at hr
            rw [runSelectedAlgorithm, halg] at hr
            exact absurd hr (by simp)
          | ok res =>
            have ho : detectSpritesFromImage imageElement config cache =
                ⟨Except.ok res,
                 manageCacheSize (cacheSet cache
                   (getCacheKey imageElement (mergeConfig config)) res), true⟩ := by
              rw [hstep, hget]
              dsimp only
              rw [runSelectedAlgorithm, halg]
              dsimp only
              rw [if_pos hec]
            rw [ho] at hr
            have hres : res = r := by simpa using hr
            subst hres
            rw [ho]
            dsimp only
            exact cacheGet_insert_manage cache _ res hget
      rw [detectSpritesFromImage, hval2]
      dsimp only
      rw [if_pos (show _ ∧ _ from ⟨hec2, hfr2⟩), hkey, hkey1]
      exact ⟨rfl, rfl⟩
  · intro imageElement config cache hval hfr
    rw [detectSpritesFromImage, hval]
    dsimp only
    rw [if_neg (by simp [hfr])]
    rw [runSelectedAlgorithm]
    cases halg : ((detectionAlgorithms (mergeConfig config).algorithm).getD
        floodFillAlgorithm) imageElement (toPartial (mergeConfig config)) with
    | error e => rfl
    | ok res =>
      dsimp only
      by_cases hec : (mergeConfig config).enableCache = true
      · rw [if_pos hec]
      · rw [if_neg hec]

/-- Witness for `cache_hit_and_force_recalculation`: a first call on the
blank 2×2 image populates the cache, and the identical second call is served
from it without running the algorithm. -/
theorem cache_hit_witness :
    (detectSpritesFromImage img2 {} (detectSpritesFromImage img2 {} []).cache).result =
      Except.ok [] ∧
    (detectSpritesFromImage img2 {} (detectSpritesFromImage img2 {} []).cache).ranAlgorithm =
      false :=
  cache_hit_and_force_recalculation.1 img2 img2 {} {} [] [] rfl rfl rfl rfl rfl rfl
    (by decide)

/-- Claim C7: the cache is capacity-bounded at `CACHE_MAX_SIZE = 10` (one
store step never leaves more than 10 entries), eviction is strict insertion
order (storing a fresh key into a full cache evicts exactly the
earliest-inserted binding, keeping every later binding and the new one), and
a cache hit does not refresh recency — a hit returns with the cache entirely
unchanged. -/
theorem cache_capacity_and_eviction :
    (∀ (cache : DetectionCache) (key : CacheKey) (v : List SpriteFrame),
        cache.length ≤ CACHE_MAX_SIZE →
        (manageCacheSize (cacheSet cache key v)).length ≤ CACHE_MAX_SIZE) ∧
    (∀ (cache : DetectionCache) (key : CacheKey) (v : List SpriteFrame),
        cache.length = CACHE_MAX_SIZE →
        cacheGet cache key = none →
        manageCacheSize (cacheSet cache key v) = cache.tail ++ [(key, v)]) ∧
    (∀ (imageElement : Image) (config : PartialConfig) (cache : DetectionCache)
        (cached : List SpriteFrame),
        validateInputs config = Except.ok () →
        (mergeConfig config).enableCache = true →
        (mergeConfig config).forceRecalculation = false →
        cacheGet cache (getCacheKey imageElement (mergeConfig config)) = some cached →
        detectSpritesFromImage imageElement config cache =
          ⟨Except.ok cached, cache, false⟩) := by
  refine ⟨?_, ?_, ?_⟩
  · intro cache key v hlen
    unfold manageCacheSize
    by_cases hfull : CACHE_MAX_SIZE < (cacheSet cache key v).length
    · rw [if_pos hfull]
      have h1 : (cacheSet cache key v).length ≤ CACHE_MAX_SIZE + 1 :=
        le_trans (cacheSet_length_le cache key v) (Nat.succ_le_succ hlen)
      calc (cacheSet cache key v).tail.length = (cacheSet cache key v).length - 1 := by
            simp
        _ ≤ CACHE_MAX_SIZE := by omega
    · rw [if_neg hfull]
      omega
  · intro cache key v hlen hget
    rw [cacheSet_absent cache key v hget]
    unfold manageCacheSize
    rw [if_pos (by simp [hlen, CACHE_MAX_SIZE])]
    cases cache with
    | nil => simp [CACHE_MAX_SIZE] at hlen
    | cons kv rest => simp
  · intro imageElement config cache cached hval hec hfr hget
    rw [detectSpritesFromImage, hval]
    dsimp only
    rw [if_pos (show _ ∧ _ from ⟨hec, hfr⟩), hget]

/-- A distinct cache key per index, used to exercise the eviction step. -/
def testKey (n : Nat) : CacheKey := ⟨n, n, 0, 0, false, "floodFill"⟩

/-- A full cache of `CACHE_MAX_SIZE` distinct keys in insertion order. -/
def testCache : DetectionCache :=
  (List.range CACHE_MAX_SIZE).map (fun n => (testKey n, []))

/-- Witness for `cache_capacity_and_eviction`: inserting an 11th distinct key
into the full 10-entry cache evicts exactly the earliest-inserted binding
`testKey 0`, keeping bindings 1–9 and appending the new one. -/
theorem cache_eviction_witness :
    manageCacheSize (cacheSet testCache (testKey 10) []) =
      testCache.tail ++ [(testKey 10, [])] :=
  cache_capacity_and_eviction.2.1 testCache (testKey 10) [] (by decide) (by decide)

/-! ## Validation lemmas -/

/-- Validation succeeds exactly when both supplied-field checks pass. -/
theorem validateInputs_ok_iff (config : PartialConfig) :
    validateInputs config = Except.ok () ↔
      ((config.tolerance.map (fun t => decide (t < 0) || decide (255 < t))).getD false = false ∧
       (config.minSpriteSize.map (fun m => decide (m < 1))).getD false = false) := by
  unfold validateInputs
  by_cases h1 : (config.tolerance.map (fun t => decide (t < 0) || decide (255 < t))).getD false = true
  · rw [if_pos h1]
    simp [h1]
  · rw [if_neg h1]
    by_cases h2 : (config.minSpriteSize.map (fun m => decide (m < 1))).getD false = true
    · rw [if_pos h2]
      simp [h1, h2]
    · rw [if_neg h2]
      simp [Bool.not_eq_true] at h1 h2
      simp [h1, h2]

/-- A validated partial configuration merges into a full configuration that
itself validates (the merged tolerance and minimum are the defaults or the
already-validated supplied values). -/
theorem validateInputs_toPartial_merge (config : PartialConfig)
    (h : validateInputs config = Except.ok ()) :
    validateInputs (toPartial (mergeConfig config)) = Except.ok () := by
  rw [validateInputs_ok_iff] at h ⊢
  obtain ⟨h1, h2⟩ := h
  constructor
  · cases ht : config.tolerance with
    | none => simp [toPartial, mergeConfig, DEFAULT_CONFIG, ht]
    | some t =>
      rw [ht] at h1
      simpa [toPartial, mergeConfig, ht] using h1
  · cases hm : config.minSpriteSize with
    | none => simp [toPartial, mergeConfig, DEFAULT_CONFIG, hm]
    | some m =>
      rw [hm] at h2
      simpa [toPartial, mergeConfig, hm] using h2

/-- A validation failure makes the orchestrator reject immediately, leaving
the cache untouched and never invoking any algorithm. -/
theorem detect_validation_error (imageElement : Image) (config : PartialConfig)
    (cache : DetectionCache) (e : String)
    (hval : validateInputs config = Except.error e) :
    detectSpritesFromImage imageElement config cache =
      ⟨Except.error ("Error en detección de sprites: " ++ e), cache, false⟩ := by
  rw [detectSpritesFromImage, hval]

/-- Claim C9: a supplied tolerance outside `[0, 255]` (or a supplied minimum
sprite size below 1) makes `detectSpritesFromImage` fail with the source's
validation error before any pixel processing — the fill algorithm is never
invoked and the outcome is independent of the image, so no clamping occurs —
while a validated call on a zero-width or zero-height image succeeds with an
empty frame list rather than an error. -/
theorem validation_rejects_and_zero_dimension_succeeds :
    (∀ (imageElement imageElement2 : Image) (config : PartialConfig)
        (cache : DetectionCache) (t : Int),
        config.tolerance = some t → (t < 0 ∨ 255 < t) →
        (detectSpritesFromImage imageElement config cache).result =
          Except.error "Error en detección de sprites: La tolerancia debe estar entre 0 y 255" ∧
        (detectSpritesFromImage imageElement config cache).ranAlgorithm = false ∧
        detectSpritesFromImage imageElement config cache =
          detectSpritesFromImage imageElement2 config cache) ∧
    (∀ (imageElement imageElement2 : Image) (config : PartialConfig)
        (cache : DetectionCache) (m : Int),
        config.minSpriteSize = some m → m < 1 →
        (∃ e, (detectSpritesFromImage imageElement config cache).result =
          Except.error e) ∧
        (detectSpritesFromImage imageElement config cache).ranAlgorithm = false ∧
        detectSpritesFromImage imageElement config cache =
          detectSpritesFromImage imageElement2 config cache) ∧
    (∀ (imageElement : Image) (config : PartialConfig),
        validateInputs config = Except.ok () →
        (imageElement.naturalWidth = 0 ∨ imageElement.naturalHeight = 0) →
        floodFillAlgorithm imageElement config = Except.ok []) ∧
    (∀ (imageElement : Image) (config : PartialConfig),
        validateInputs config = Except.ok () →
        (imageElement.naturalWidth = 0 ∨ imageElement.naturalHeight = 0) →
        (detectSpritesFromImage imageElement config []).result = Except.ok []) := by
  have hzero : ∀ (imageElement : Image) (config : PartialConfig),
      validateInputs config = Except.ok () →
      (imageElement.naturalWidth = 0 ∨ imageElement.naturalHeight = 0) →
      floodFillAlgorithm imageElement config = Except.ok [] := by
    intro imageElement config hval hdim
    unfold floodFillAlgorithm
    rw [hval]
    dsimp only
    rw [if_pos hdim]
  refine ⟨?_, ?_, hzero, ?_⟩
  · intro imageElement imageElement2 config cache t ht hbad
    have hval : validateInputs config =
        Except.error "La tolerancia debe estar entre 0 y 255" := by
      unfold validateInputs
      rw [if_pos (by rcases hbad with hb | hb <;> simp [ht, hb])]
    rw [detect_validation_error imageElement config cache _ hval,
        detect_validation_error imageElement2 config cache _ hval]
    exact ⟨rfl, rfl, rfl⟩
  · intro imageElement imageElement2 config cache m hm hbad
    by_cases htol :
        (config.tolerance.map (fun t => decide (t < 0) || decide (255 < t))).getD false = true
    · have hval : validateInputs config =
          Except.error "La tolerancia debe estar entre 0 y 255" := by
        unfold validateInputs
        rw [if_pos htol]
      rw [detect_validation_error imageElement config cache _ hval,
          detect_validation_error imageElement2 config cache _ hval]
      exact ⟨⟨_, rfl⟩, rfl, rfl⟩
    · have hval : validateInputs config =
          Except.error "El tamaño mínimo de sprite debe ser al menos 1" := by
        unfold validateInputs
        rw [if_neg htol, if_pos (by simp [hm, hbad])]
      rw [detect_validation_error imageElement config cache _ hval,
          detect_validation_error imageElement2 config cache _ hval]
      exact ⟨⟨_, rfl⟩, rfl, rfl⟩
  · intro imageElement config hval hdim
    have hffa : floodFillAlgorithm imageElement (toPartial (mergeConfig config)) =
        Except.ok [] :=
      hzero imageElement _ (validateInputs_toPartial_merge config hval) hdim
    rw [detectSpritesFromImage, hval]
    dsimp only
    by_cases hcf : (mergeConfig config).enableCache = true ∧
        (mergeConfig config).forceRecalculation = false
    · rw [if_pos hcf]
      show (runSelectedAlgorithm imageElement (mergeConfig config) []).result = _
      rw [runSelectedAlgorithm, selected_algorithm_eq_floodFill, hffa]
      dsimp only
      by_cases hec : (mergeConfig config).enableCache = true
      · rw [if_pos hec]
      · rw [if_neg hec]
    · rw [if_neg hcf]
      rw [runSelectedAlgorithm, selected_algorithm_eq_floodFill, hffa]
      dsimp only
      by_cases hec : (mergeConfig config).enableCache = true
      · rw [if_pos hec]
      · rw [if_neg hec]

/-- Witness for `validation_rejects_and_zero_dimension_succeeds`: a tolerance
of 300 is rejected identically on two different images, and a validated call
on a 0×0 image returns an empty frame list. -/
theorem validation_witness :
    ((detectSpritesFromImage img2 { tolerance := some 300 } []).result =
        Except.error "Error en detección de sprites: La tolerancia debe estar entre 0 y 255" ∧
      (detectSpritesFromImage img2 { tolerance := some 300 } []).ranAlgorithm = false ∧
      detectSpritesFromImage img2 { tolerance := some 300 } [] =
        detectSpritesFromImage img3 { tolerance := some 300 } []) ∧
    (detectSpritesFromImage ⟨0, 0, []⟩ {} []).result = Except.ok [] :=
  ⟨validation_rejects_and_zero_dimension_succeeds.1 img2 img3
      { tolerance := some 300 } [] 300 rfl (Or.inr (by decide)),
   validation_rejects_and_zero_dimension_succeeds.2.2.2 ⟨0, 0, []⟩ {} rfl (Or.inl rfl)⟩

/-- The flood-fill pipeline never reads the `algorithm` field of its
configuration argument, so two configurations differing only there produce
identical results. -/
theorem floodFillAlgorithm_algorithm_irrelevant (imageElement : Image)
    (t m : Option Int) (u8 : Option Bool) (a1 a2 : Option String)
    (ec fr enr : Option Bool) (nt : Option Int) :
    floodFillAlgorithm imageElement ⟨t, m, u8, a1, ec, fr, enr, nt⟩ =
      floodFillAlgorithm imageElement ⟨t, m, u8, a2, ec, fr, enr, nt⟩ := rfl

/-- Claim C8: the unimplemented `contour` and `ai` strategies delegate to the
flood fill rather than erroring — as plugin functions they are the flood-fill
algorithm — and an orchestrator call selecting `"contour"` or `"ai"`
produces exactly the result of one selecting `"floodFill"` under identical
other configuration fields (caching disabled so the runs are uncached). -/
theorem placeholder_algorithms_delegate :
    (∀ (imageElement : Image) (config : PartialConfig),
        contourAlgorithm imageElement config = floodFillAlgorithm imageElement config ∧
        aiDetectionAlgorithm imageElement config = floodFillAlgorithm imageElement config) ∧
    (∀ (imageElement : Image) (cache : DetectionCache) (t m : Option Int)
        (u8 : Option Bool) (fr enr : Option Bool) (nt : Option Int),
        (detectSpritesFromImage imageElement
            ⟨t, m, u8, some "contour", some false, fr, enr, nt⟩ cache).result =
          (detectSpritesFromImage imageElement
            ⟨t, m, u8, some "floodFill", some false, fr, enr, nt⟩ cache).result ∧
        (detectSpritesFromImage imageElement
            ⟨t, m, u8, some "ai", some false, fr, enr, nt⟩ cache).result =
          (detectSpritesFromImage imageElement
            ⟨t, m, u8, some "floodFill", some false, fr, enr, nt⟩ cache).result) := by
  refine ⟨fun imageElement config => ⟨rfl, rfl⟩, ?_⟩
  intro imageElement cache t m u8 fr enr nt
  exact ⟨rfl, rfl⟩

end SpriteDetect
